import Mathlib

/-!
Shallow embedding of the traffic-intersection simulator
(src/intersection.js and the Car / CarManager module), together with
theorems checking the natural-language specification against it.

Modelling conventions:
* JS numbers are idealised as real numbers; the single place where the
  code can divide by zero (the lane-change correction of
  getVehicleOrientation) is modelled with an explicit IEEE-style value
  type JSNum carrying infinities and NaN, mirroring what JavaScript
  actually computes there.
* Randomness (spawn direction, spawn lane, turn-type draw) and the wall
  clock (Date.now) are injected as explicit arguments, as the spec
  requires for deterministic testing.
* Rendering-only code (canvas drawing, precomputed drawing arrays,
  colors) contributes no simulation state and is not embedded.
* The configuration module config.js is not part of the given sources;
  the configuration is therefore a structure of abstract constants, and
  the few concrete values needed are modelled from the spec where noted.
-/

set_option maxHeartbeats 1000000

open scoped Classical

namespace TrafficSim

/-- Cardinal directions (CONFIG.DIRECTIONS). -/
inductive Direction
  | north
  | east
  | south
  | west
deriving DecidableEq, Inhabited

/-- Traffic-light states (CONFIG.LIGHT_STATES). -/
inductive Light
  | red
  | yellow
  | green
deriving DecidableEq

/-- Turn types (CONFIG.TURN_TYPES). -/
inductive TurnType
  | straight
  | left
  | right
deriving DecidableEq

/-- Vehicle finite-state-machine states. -/
inductive CarState
  | approaching
  | waiting
  | crossing
  | turning
  | exiting
  | completed
deriving DecidableEq

/-- The injected configuration constants (config.js is external to the
given sources; the fields mirror the CONFIG members the embedded code
reads).  DEFAULT_CAR_SPEED, DEFAULT_CAR_SPAWN_RATE and DEFAULT_TURN_RATE
are the members of CONFIG.DEFAULT_SETTINGS. -/
structure Config where
  LANE_WIDTH : ℝ
  N_LANES_MAIN : ℕ
  N_LANES_SEC : ℕ
  RADIUS_RIGHT : ℝ
  RADIUS_LEFT : ℝ
  LEN_RIGHT : ℝ
  LEN_LEFT : ℝ
  CANVAS_WIDTH : ℝ
  CANVAS_HEIGHT : ℝ
  REF_SIZE_PHYS : ℝ
  OFFSET_MAIN : ℝ
  OFFSET_SEC : ℝ
  OFFSET_20_TARGET : ℝ
  INTERSECTION_SIZE : ℝ
  ROAD_WIDTH : ℝ
  CAR_LENGTH : ℝ
  CAR_WIDTH : ℝ
  CAR_HEIGHT : ℝ
  DEFAULT_CAR_SPEED : ℝ
  DEFAULT_CAR_SPAWN_RATE : ℝ
  DEFAULT_TURN_RATE : ℝ
  TURN_DELAYS : TurnType → ℝ
  HEADINGS : Direction → ℝ

/-- Pixel scale factor: this.scale = CONFIG.CANVAS_WIDTH / CONFIG.REF_SIZE_PHYS. -/
noncomputable def scale (cfg : Config) : ℝ := cfg.CANVAS_WIDTH / cfg.REF_SIZE_PHYS

/-- const centerXPhys = this.centerX / this.scale. -/
noncomputable def centerXPhys (cfg : Config) (cX : ℝ) : ℝ := cX / scale cfg

/-- const centerYPhys = this.centerY / this.scale. -/
noncomputable def centerYPhys (cfg : Config) (cY : ℝ) : ℝ := cY / scale cfg

/-- An alternative ("turn") trajectory entry as pushed onto road.trajAlt.
The position functions take (u, dr), dr defaulting to 0 at call sites. -/
structure AltTraj where
  x : ℝ → ℝ → ℝ
  y : ℝ → ℝ → ℝ
  roadID : ℕ
  umin : ℝ
  umax : ℝ
  laneMin : ℝ
  laneMax : ℝ

/-- A road segment: id and the rendering arrays are dropped, the
simulation-relevant fields are kept. -/
structure Road where
  roadLen : ℝ
  nLanes : ℕ
  trajx : ℝ → ℝ
  trajy : ℝ → ℝ
  trajAlt : List AltTraj

/-- Whether a list of characters contains the substring "main"
(JS type.includes used by createRoad). -/
def containsMain : List Char → Bool
  | [] => false
  | c :: rest => ((c :: rest).take 4 == ['m', 'a', 'i', 'n']) || containsMain rest

/-- createRoad lane count: type.includes("main") picks N_LANES_MAIN,
otherwise N_LANES_SEC.  (None of the six road type strings actually
contains "main", so every road gets N_LANES_SEC.) -/
def roadNLanes (cfg : Config) (type : String) : ℕ :=
  if containsMain type.toList then cfg.N_LANES_MAIN else cfg.N_LANES_SEC

/-- Intersection.get_phi: central finite difference of the trajectory
with step du = 0.1 at a position clamped into [du, roadLen - du], a
vertical-tangent guard at tolerance 1e-7, atan otherwise, and a pi shift
when dx < 0 or (dx is tiny and dy < 0). -/
noncomputable def get_phi (u : ℝ) (tx ty : ℝ → ℝ) (roadLen : ℝ) : ℝ :=
  let du : ℝ := 0.1
  let uLoc := max du (min (roadLen - du) u)
  let dx := tx (uLoc + du) - tx (uLoc - du)
  let dy := ty (uLoc + du) - ty (uLoc - du)
  let phi := if |dx| < 0.0000001 then 0.5 * Real.pi else Real.arctan (dy / dx)
  if dx < 0 ∨ (|dx| < 0.0000001 ∧ dy < 0) then phi + Real.pi else phi

/-- Intersection.setupRightTurnTrajectory: the AltTraj it pushes onto
roads[fromRoadId].trajAlt.  nLanesFrom is road.nLanes of the source road. -/
noncomputable def setupRightTurnTrajectory (cfg : Config) (fromRoadId toRoadId : ℕ)
    (cXPhys cYPhys u20Target : ℝ) (nLanesFrom : ℕ) : AltTraj :=
  let offsetSource := if fromRoadId < 2 then cfg.OFFSET_MAIN else cfg.OFFSET_SEC
  { x := fun u dr =>
      let urel := u - u20Target
      let x0 := cXPhys + offsetSource + cfg.RADIUS_RIGHT
      if urel < 0 then x0 - (cfg.RADIUS_RIGHT + dr)
      else x0 - (cfg.RADIUS_RIGHT + dr) * Real.cos (urel / cfg.RADIUS_RIGHT)
    y := fun u dr =>
      let urel := u - u20Target
      let y0 := cYPhys - cfg.OFFSET_20_TARGET - cfg.RADIUS_RIGHT
      if urel < 0 then y0 + urel
      else y0 + (cfg.RADIUS_RIGHT + dr) * Real.sin (urel / cfg.RADIUS_RIGHT)
    roadID := toRoadId
    umin := u20Target
    umax := u20Target + cfg.LEN_RIGHT
    laneMin := (nLanesFrom : ℝ) - 1
    laneMax := (nLanesFrom : ℝ) - 1 }

/-- Intersection.setupLeftTurnTrajectory.  Note straightSec =
this.lenLeft - CONFIG.LEN_LEFT, and this.lenLeft is CONFIG.LEN_LEFT, so
the straight section has length zero; the expression is kept as written. -/
noncomputable def setupLeftTurnTrajectory (cfg : Config) (fromRoadId toRoadId : ℕ)
    (cXPhys cYPhys u20Target : ℝ) : AltTraj :=
  let offsetSource := if fromRoadId < 2 then cfg.OFFSET_MAIN else cfg.OFFSET_SEC
  let straightSec := cfg.LEN_LEFT - cfg.LEN_LEFT
  { x := fun u dr =>
      let x0 := cXPhys + offsetSource - cfg.RADIUS_LEFT
      let urel := u - u20Target
      if urel < straightSec then x0 + (cfg.RADIUS_LEFT + dr)
      else x0 + (cfg.RADIUS_LEFT + dr) * Real.cos ((urel - straightSec) / cfg.RADIUS_LEFT)
    y := fun u dr =>
      let y0 := cYPhys - cfg.OFFSET_20_TARGET - cfg.RADIUS_LEFT
      let urel := u - u20Target
      if urel < straightSec then y0 + urel
      else y0 + (cfg.RADIUS_LEFT + dr) * Real.sin ((urel - straightSec) / cfg.RADIUS_LEFT)
    roadID := toRoadId
    umin := u20Target
    umax := u20Target + cfg.LEN_LEFT
    laneMin := 0
    laneMax := 0 }

/-- Start position for turns: const u20Target = 104.16 in
setupAlternativeTrajectories. -/
def u20T : ℝ := 104.16

/-- Road 0, east-bound main: x = centerXPhys + u - roadLen/2, y constant.
trajAlt per setupAlternativeTrajectories: right turn to road 2 pushed
first, left turn to road 3 second. -/
noncomputable def road0 (cfg : Config) (cX cY : ℝ) : Road :=
  { roadLen := 200
    nLanes := roadNLanes cfg ("east-bound")
    trajx := fun u => centerXPhys cfg cX + u - 0.5 * 200
    trajy := fun _ => centerYPhys cfg cY - cfg.OFFSET_MAIN
    trajAlt :=
      [ setupRightTurnTrajectory cfg 0 2 (centerXPhys cfg cX) (centerYPhys cfg cY) u20T
          (roadNLanes cfg ("east-bound"))
      , setupLeftTurnTrajectory cfg 0 3 (centerXPhys cfg cX) (centerYPhys cfg cY) u20T ] }

/-- Road 1, west-bound main. -/
noncomputable def road1 (cfg : Config) (cX cY : ℝ) : Road :=
  { roadLen := 200
    nLanes := roadNLanes cfg ("west-bound")
    trajx := fun u => centerXPhys cfg cX - u + 0.5 * 200
    trajy := fun _ => centerYPhys cfg cY + cfg.OFFSET_MAIN
    trajAlt :=
      [ setupRightTurnTrajectory cfg 1 4 (centerXPhys cfg cX) (centerYPhys cfg cY) u20T
          (roadNLanes cfg ("west-bound"))
      , setupLeftTurnTrajectory cfg 1 5 (centerXPhys cfg cX) (centerYPhys cfg cY) u20T ] }

/-- Road 2, north-bound secondary. -/
noncomputable def road2 (cfg : Config) (cX cY : ℝ) : Road :=
  { roadLen := 200
    nLanes := roadNLanes cfg ("north-bound")
    trajx := fun _ => centerXPhys cfg cX + cfg.OFFSET_SEC
    trajy := fun u =>
      centerYPhys cfg cY - cfg.OFFSET_20_TARGET - cfg.RADIUS_RIGHT - 200 + u
    trajAlt :=
      [ setupRightTurnTrajectory cfg 2 0 (centerXPhys cfg cX) (centerYPhys cfg cY) u20T
          (roadNLanes cfg ("north-bound"))
      , setupLeftTurnTrajectory cfg 2 1 (centerXPhys cfg cX) (centerYPhys cfg cY) u20T ] }

/-- Road 3, north exit (no alternative trajectories). -/
noncomputable def road3 (cfg : Config) (cX cY : ℝ) : Road :=
  { roadLen := 200
    nLanes := roadNLanes cfg ("north-exit")
    trajx := fun _ => centerXPhys cfg cX - cfg.OFFSET_SEC
    trajy := fun u =>
      centerYPhys cfg cY + cfg.OFFSET_20_TARGET + cfg.RADIUS_RIGHT + u
    trajAlt := [] }

/-- Road 4, south-bound secondary. -/
noncomputable def road4 (cfg : Config) (cX cY : ℝ) : Road :=
  { roadLen := 200
    nLanes := roadNLanes cfg ("south-bound")
    trajx := fun _ => centerXPhys cfg cX - cfg.OFFSET_SEC
    trajy := fun u =>
      centerYPhys cfg cY + cfg.OFFSET_20_TARGET + cfg.RADIUS_RIGHT + 200 - u
    trajAlt :=
      [ setupRightTurnTrajectory cfg 4 1 (centerXPhys cfg cX) (centerYPhys cfg cY) u20T
          (roadNLanes cfg ("south-bound"))
      , setupLeftTurnTrajectory cfg 4 0 (centerXPhys cfg cX) (centerYPhys cfg cY) u20T ] }

/-- Road 5, south exit (no alternative trajectories). -/
noncomputable def road5 (cfg : Config) (cX cY : ℝ) : Road :=
  { roadLen := 200
    nLanes := roadNLanes cfg ("south-exit")
    trajx := fun _ => centerXPhys cfg cX + cfg.OFFSET_SEC
    trajy := fun u =>
      centerYPhys cfg cY - cfg.OFFSET_20_TARGET - cfg.RADIUS_RIGHT - u
    trajAlt := [] }

/-- this.roads after initializeRoads for an intersection centred at the
pixel point (cX, cY). -/
noncomputable def intersectionRoads (cfg : Config) (cX cY : ℝ) : List Road :=
  [road0 cfg cX cY, road1 cfg cX cY, road2 cfg cX cY,
   road3 cfg cX cY, road4 cfg cX cY, road5 cfg cX cY]

/-- Intersection.getVehiclePosition: physical pose from (roadId, u, v),
returned in pixel coordinates (x scaled, y scaled and flipped).  A road
id that does not resolve yields none (the JS null). -/
noncomputable def getVehiclePosition (cfg : Config) (cX cY : ℝ)
    (roadId : ℕ) (u v : ℝ) : Option (ℝ × ℝ) :=
  match (intersectionRoads cfg cX cY)[roadId]? with
  | none => none
  | some road =>
    let uCenterPhys := u - 0.5 * cfg.CAR_LENGTH
    let vCenterPhys := cfg.LANE_WIDTH * (v - 0.5 * ((road.nLanes : ℝ) - 1))
    let x := road.trajx uCenterPhys +
      vCenterPhys * Real.cos (get_phi uCenterPhys road.trajx road.trajy road.roadLen + Real.pi / 2)
    let y := road.trajy uCenterPhys +
      vCenterPhys * Real.sin (get_phi uCenterPhys road.trajx road.trajy road.roadLen + Real.pi / 2)
    some (x * scale cfg, -y * scale cfg)

/-- A JavaScript number as relevant to this code: a finite value, a
signed infinity, or NaN. -/
inductive JSNum
  | fin (x : ℝ)
  | posInf
  | negInf
  | nan

/-- JS division a / b of finite operands (the only divisions by a
possibly-zero denominator in the embedded code have finite numerators):
division by +0 gives a signed infinity, 0 / 0 gives NaN. -/
noncomputable def jsDiv (a b : ℝ) : JSNum :=
  if b = 0 then
    (if 0 < a then JSNum.posInf else if a < 0 then JSNum.negInf else JSNum.nan)
  else JSNum.fin (a / b)

/-- Math.atan on a JS number: atan(±∞) = ±π/2, atan(NaN) = NaN. -/
noncomputable def jsAtan : JSNum → JSNum
  | JSNum.fin x => JSNum.fin (Real.arctan x)
  | JSNum.posInf => JSNum.fin (Real.pi / 2)
  | JSNum.negInf => JSNum.fin (-(Real.pi / 2))
  | JSNum.nan => JSNum.nan

/-- JS unary minus on a JS number. -/
noncomputable def jsNeg : JSNum → JSNum
  | JSNum.fin x => JSNum.fin (-x)
  | JSNum.posInf => JSNum.negInf
  | JSNum.negInf => JSNum.posInf
  | JSNum.nan => JSNum.nan

/-- JS addition of a finite number and a JS number. -/
noncomputable def jsAddFin (a : ℝ) : JSNum → JSNum
  | JSNum.fin x => JSNum.fin (a + x)
  | JSNum.posInf => JSNum.posInf
  | JSNum.negInf => JSNum.negInf
  | JSNum.nan => JSNum.nan

/-- Intersection.getVehicleOrientation: road tangent angle at the
half-car-length shifted station plus the lane-change correction
-atan(dvdt * laneWidth / speed), the latter computed with JS number
semantics (so speed = 0 does NOT give a zero correction: the quotient is
a signed infinity or NaN).  An unresolved road id returns 0. -/
noncomputable def getVehicleOrientation (cfg : Config) (cX cY : ℝ)
    (roadId : ℕ) (u dvdt speed : ℝ) : JSNum :=
  match (intersectionRoads cfg cX cY)[roadId]? with
  | none => JSNum.fin 0
  | some road =>
    let uCenterPhys := u - 0.5 * cfg.CAR_LENGTH
    let phiRoad := get_phi uCenterPhys road.trajx road.trajy road.roadLen
    jsAddFin phiRoad (jsNeg (jsAtan (jsDiv (dvdt * cfg.LANE_WIDTH) speed)))

/-- A vehicle.  Rendering-only fields (color) are dropped; everything the
state machine reads or writes is kept.  The angle is a JSNum because the
orientation computation can produce NaN (see getVehicleOrientation). -/
structure Car where
  id : ℕ
  fromDirection : Direction
  toDirection : Direction
  turnType : TurnType
  lane : ℝ
  roadId : ℕ
  u : ℝ
  v : ℝ
  dvdt : ℝ
  len : ℝ
  x : ℝ
  y : ℝ
  angle : JSNum
  speed : ℝ
  maxSpeed : ℝ
  width : ℝ
  height : ℝ
  state : CarState
  waitStartTime : Option ℝ
  totalWaitTime : ℝ
  isInIntersection : Prop
  pathProgress : ℝ
  turnStartTime : Option ℝ
  isHidden : Bool
  targetX : ℝ
  targetY : ℝ

/-- Car.getRoadIdFromDirection (same switch in Car and CarManager).
CONFIG.ROAD_IDS follows the road list of intersection.js: east-bound 0,
west-bound 1, north-bound 2, south-bound 4. -/
def getRoadIdFromDirection : Direction → ℕ
  | Direction.east => 0
  | Direction.west => 1
  | Direction.north => 2
  | Direction.south => 4

/-- Car.calculateToDirection with the turn type the constructor sees at
route-building time.  The constructor builds the route BEFORE assigning
this.turnType, so the switch runs on undefined and always takes the
default (straight-across) branch; the argument none models that. -/
def calculateToDirection (turnType : Option TurnType) (fromDirection : Direction) : Direction :=
  let directions := [Direction.north, Direction.east, Direction.south, Direction.west]
  let currentIndex := directions.indexOf fromDirection
  match turnType with
  | some TurnType.left => directions[(currentIndex + 1) % 4]!
  | some TurnType.right => directions[(currentIndex + 3) % 4]!
  | some TurnType.straight => directions[(currentIndex + 2) % 4]!
  | none => directions[(currentIndex + 2) % 4]!

/-- Car.calculateTurnType with the random draw injected. -/
noncomputable def calculateTurnType (cfg : Config) (turnChance : ℝ) : TurnType :=
  if turnChance < cfg.DEFAULT_TURN_RATE / 2 then TurnType.left
  else if turnChance < cfg.DEFAULT_TURN_RATE then TurnType.right
  else TurnType.straight

/-- Car.getInitialAngle. -/
noncomputable def getInitialAngle : Direction → ℝ
  | Direction.north => Real.pi / 2
  | Direction.east => Real.pi
  | Direction.south => -(Real.pi / 2)
  | Direction.west => 0

/-- Intersection.getExitPoint (offset 300 from the pixel centre);
total on the direction enum, so never the undefined branch. -/
def getExitPoint (cX cY : ℝ) : Direction → ℝ × ℝ
  | Direction.north => (cX, cY - 300)
  | Direction.south => (cX, cY + 300)
  | Direction.east => (cX + 300, cY)
  | Direction.west => (cX - 300, cY)

/-- Intersection.spawnPoints (calculatePositions). -/
noncomputable def spawnPoints (cfg : Config) (cX cY : ℝ) : Direction → ℝ × ℝ
  | Direction.north => (cX - cfg.LANE_WIDTH / 2, 0)
  | Direction.east => (cfg.CANVAS_WIDTH, cY - cfg.LANE_WIDTH / 2)
  | Direction.south => (cX + cfg.LANE_WIDTH / 2, cfg.CANVAS_HEIGHT)
  | Direction.west => (0, cY + cfg.LANE_WIDTH / 2)

/-- Intersection.spawnPointsByLane / getSpawnPointForLane for the two
spawn lanes. -/
noncomputable def getSpawnPointForLane (cfg : Config) (cX cY : ℝ)
    (direction : Direction) (lane : Fin 2) : ℝ × ℝ :=
  match direction, lane with
  | Direction.north, ⟨0, _⟩ => (cX - cfg.LANE_WIDTH / 2, 0)
  | Direction.north, _ => (cX + cfg.LANE_WIDTH / 2, cfg.CANVAS_HEIGHT)
  | Direction.east, ⟨0, _⟩ => (cfg.CANVAS_WIDTH, cY - cfg.LANE_WIDTH / 2)
  | Direction.east, _ => (0, cY + cfg.LANE_WIDTH / 2)
  | Direction.south, ⟨0, _⟩ => (cX + cfg.LANE_WIDTH / 2, cfg.CANVAS_HEIGHT)
  | Direction.south, _ => (cX - cfg.LANE_WIDTH / 2, 0)
  | Direction.west, ⟨0, _⟩ => (0, cY + cfg.LANE_WIDTH / 2)
  | Direction.west, _ => (cfg.CANVAS_WIDTH, cY - cfg.LANE_WIDTH / 2)

/-- Intersection.isInIntersection: the central square bounded by half
the road width around the pixel centre. -/
def isInIntersectionAt (cfg : Config) (cX cY x y : ℝ) : Prop :=
  cX - cfg.ROAD_WIDTH / 2 ≤ x ∧ x ≤ cX + cfg.ROAD_WIDTH / 2 ∧
    cY - cfg.ROAD_WIDTH / 2 ≤ y ∧ y ≤ cY + cfg.ROAD_WIDTH / 2

/-- Car.updatePixelPosition: refresh (x, y, angle) from (roadId, u, v);
skipped when the road id does not resolve. -/
noncomputable def updatePixelPosition (cfg : Config) (cX cY : ℝ) (car : Car) : Car :=
  match getVehiclePosition cfg cX cY car.roadId car.u car.v with
  | some pos =>
    { car with
      x := pos.1
      y := pos.2
      angle := getVehicleOrientation cfg cX cY car.roadId car.u car.dvdt car.speed }
  | none => car

/-- The Car constructor with the random draws (lane, turn chance)
injected; the optional route argument is never supplied by spawnCar, so
the route is [direction, intersection, straight-across] (see
calculateToDirection).  Includes initializePhysicalPosition (u = 10,
v = lane, pixel refresh) and calculateTargetPosition. -/
noncomputable def Car.spawn (cfg : Config) (cX cY : ℝ) (id : ℕ)
    (direction : Direction) (lane : Fin 2) (turnChance : ℝ) : Car :=
  updatePixelPosition cfg cX cY
    { id := id
      fromDirection := direction
      toDirection := calculateToDirection none direction
      turnType := calculateTurnType cfg turnChance
      lane := (lane : ℕ)
      roadId := getRoadIdFromDirection direction
      u := 10
      v := (lane : ℕ)
      dvdt := 0
      len := cfg.CAR_LENGTH
      x := (getSpawnPointForLane cfg cX cY direction lane).1
      y := (getSpawnPointForLane cfg cX cY direction lane).2
      angle := JSNum.fin (getInitialAngle direction)
      speed := 0
      maxSpeed := cfg.DEFAULT_CAR_SPEED * cfg.LANE_WIDTH
      width := cfg.CAR_WIDTH / cfg.LANE_WIDTH
      height := cfg.CAR_HEIGHT / cfg.LANE_WIDTH
      state := CarState.approaching
      waitStartTime := none
      totalWaitTime := 0
      isInIntersection := False
      pathProgress := 0
      turnStartTime := none
      isHidden := false
      targetX := (getExitPoint cX cY direction).1
      targetY := (getExitPoint cX cY direction).2 }

/-- Car.prepareForTurn: tactical lane commit (left to lane 0, right to
lane 1, straight keeps the current lane). -/
def prepareForTurn (car : Car) : Car :=
  match car.turnType with
  | TurnType.left => { car with lane := 0 }
  | TurnType.right => { car with lane := 1 }
  | TurnType.straight => car

/-- Car.getDistanceToStopLine: the stop-line record argument is ignored;
distance is to the fixed intersection-entry station u = 100, floored at
zero, and 0 when the road id does not resolve. -/
noncomputable def getDistanceToStopLine (cfg : Config) (cX cY : ℝ) (car : Car) : ℝ :=
  match (intersectionRoads cfg cX cY)[car.roadId]? with
  | none => 0
  | some _ => max 0 (100 - car.u)

/-- Car.checkForCarAhead: over the manager population in order, the car
on the same road with the smallest positive u-gap ahead of self (the
none accumulator plays the role of closestDistance = Infinity). -/
noncomputable def checkForCarAhead (self : Car) (allCars : List Car) : Option Car :=
  allCars.foldl
    (fun closest other =>
      if other.id = self.id ∨ other.roadId ≠ self.roadId then closest
      else if self.u < other.u ∧ 0 < other.u - self.u ∧
          (match closest with
           | none => True
           | some c => other.u - self.u < c.u - self.u) then some other
      else closest)
    none

/-- Car.getDistanceToCarAhead on a some result (Infinity on none never
feeds a comparison that matters, see approachShouldStop). -/
def getDistanceToCarAhead (self other : Car) : ℝ := |other.u - self.u|

/-- The spacing condition of updateApproaching: a car ahead exists and
is closer than 35. -/
def approachShouldStop (self : Car) (allCars : List Car) : Prop :=
  match checkForCarAhead self allCars with
  | some a => getDistanceToCarAhead self a < 35
  | none => False

/-- Car.updateApproaching: lane commit, then the stop decision against
stop-line distance, spacing and the light, else acceleration and the
crossing transition. -/
noncomputable def updateApproaching (cfg : Config) (cX cY dt : ℝ)
    (lights : Direction → Light) (allCars : List Car) (now : ℝ) (car0 : Car) : Car :=
  let car := prepareForTurn car0
  let distanceToStop := getDistanceToStopLine cfg cX cY car
  let shouldStop := approachShouldStop car allCars
  if (distanceToStop ≤ 30 ∨ shouldStop) ∧
      (lights car.fromDirection = Light.red ∨ shouldStop) then
    { car with
      state := CarState.waiting
      speed := 0
      waitStartTime := if shouldStop then car.waitStartTime else some now }
  else
    let car := { car with speed := min car.maxSpeed (car.speed + 10 * dt) }
    if car.isInIntersection then { car with state := CarState.crossing } else car

/-- Car.updateWaiting: speed forced to zero, wait time accumulated from
the recorded start, transition to crossing on green or yellow. -/
noncomputable def updateWaiting (lights : Direction → Light) (now : ℝ) (car0 : Car) : Car :=
  let car := { car0 with speed := 0 }
  let car :=
    match car.waitStartTime with
    | some t => { car with totalWaitTime := now - t }
    | none => car
  if lights car.fromDirection = Light.green ∨ lights car.fromDirection = Light.yellow then
    { car with state := CarState.crossing, waitStartTime := none }
  else car

/-- Car.findAlternativeTrajectory scan (road.trajAlt.find in
followAlternativeTrajectory): first entry whose [umin, umax] contains u
and whose [laneMin, laneMax] contains the committed lane. -/
noncomputable def findAlt (u lane : ℝ) : List AltTraj → Option AltTraj
  | [] => none
  | t :: rest =>
    if t.umin ≤ u ∧ u ≤ t.umax ∧ t.laneMin ≤ lane ∧ lane ≤ t.laneMax then some t
    else findAlt u lane rest

/-- Car.followAlternativeTrajectory: on a match, switch road id, reset u
to the entry station and cap speed at 0.8 * maxSpeed; otherwise leave
the car unchanged. -/
noncomputable def followAlternativeTrajectory (cfg : Config) (cX cY : ℝ) (car : Car) : Car :=
  match (intersectionRoads cfg cX cY)[car.roadId]? with
  | none => car
  | some road =>
    match findAlt car.u car.lane road.trajAlt with
    | some altTraj =>
      { car with
        roadId := altTraj.roadID
        u := altTraj.umin
        speed := min (car.maxSpeed * 0.8) car.speed }
    | none => car

/-- Car.updateCrossing: turns go through the alternative-trajectory
switch, straight movement accelerates with a 1.2 cap boost; leaving the
intersection footprint with positive path progress moves to exiting;
path progress always advances. -/
noncomputable def updateCrossing (cfg : Config) (cX cY dt : ℝ) (car0 : Car) : Car :=
  let car :=
    if car0.turnType ≠ TurnType.straight then followAlternativeTrajectory cfg cX cY car0
    else { car0 with speed := min (car0.maxSpeed * 1.2) (car0.speed + 15 * dt) }
  let car :=
    if ¬car.isInIntersection ∧ 0 < car.pathProgress then
      { car with state := CarState.exiting }
    else car
  { car with pathProgress := car.pathProgress + dt }

/-- Car.getExitPosition: destination direction, pixel pose and heading
for the teleport-style turn execution. -/
noncomputable def getExitPosition (cfg : Config) (cX cY : ℝ)
    (fromDirection : Direction) (turnType : TurnType) (lane : ℝ) :
    Direction × ℝ × ℝ × ℝ :=
  let laneOffset := (lane - 0.5) * cfg.LANE_WIDTH
  let roadDistance := cfg.INTERSECTION_SIZE / 2 + 10
  match fromDirection, turnType with
  | Direction.north, TurnType.straight =>
    (Direction.south, cX + laneOffset, cY + roadDistance, cfg.HEADINGS Direction.south)
  | Direction.north, TurnType.left =>
    (Direction.east, cX + roadDistance, cY + laneOffset, cfg.HEADINGS Direction.east)
  | Direction.north, TurnType.right =>
    (Direction.west, cX - roadDistance, cY - laneOffset, cfg.HEADINGS Direction.west)
  | Direction.south, TurnType.straight =>
    (Direction.north, cX - laneOffset, cY - roadDistance, cfg.HEADINGS Direction.north)
  | Direction.south, TurnType.left =>
    (Direction.west, cX - roadDistance, cY - laneOffset, cfg.HEADINGS Direction.west)
  | Direction.south, TurnType.right =>
    (Direction.east, cX + roadDistance, cY + laneOffset, cfg.HEADINGS Direction.east)
  | Direction.east, TurnType.straight =>
    (Direction.west, cX - roadDistance, cY + laneOffset, cfg.HEADINGS Direction.west)
  | Direction.east, TurnType.left =>
    (Direction.north, cX - laneOffset, cY - roadDistance, cfg.HEADINGS Direction.north)
  | Direction.east, TurnType.right =>
    (Direction.south, cX + laneOffset, cY + roadDistance, cfg.HEADINGS Direction.south)
  | Direction.west, TurnType.straight =>
    (Direction.east, cX + roadDistance, cY - laneOffset, cfg.HEADINGS Direction.east)
  | Direction.west, TurnType.left =>
    (Direction.south, cX + laneOffset, cY + roadDistance, cfg.HEADINGS Direction.south)
  | Direction.west, TurnType.right =>
    (Direction.north, cX - laneOffset, cY - roadDistance, cfg.HEADINGS Direction.north)

/-- Car.degreesToRadians. -/
noncomputable def degreesToRadians (degrees : ℝ) : ℝ := degrees * Real.pi / 180

/-- Car.updateTurning: once the per-turn-type delay has elapsed since
turnStartTime (a null start coerces to 0 in the JS subtraction),
teleport to the exit pose, resume at maxSpeed and move to exiting. -/
noncomputable def updateTurning (cfg : Config) (cX cY : ℝ) (now : ℝ) (car : Car) : Car :=
  let turnDelay := cfg.TURN_DELAYS car.turnType
  let elapsedTime := now - (car.turnStartTime.getD 0)
  if turnDelay ≤ elapsedTime then
    let exitInfo := getExitPosition cfg cX cY car.fromDirection car.turnType car.lane
    { car with
      x := exitInfo.2.1
      y := exitInfo.2.2.1
      angle := JSNum.fin (degreesToRadians exitInfo.2.2.2)
      fromDirection := exitInfo.1
      isHidden := false
      speed := car.maxSpeed
      state := CarState.exiting
      turnStartTime := none }
  else car

/-- Car.updateExiting: full speed; completion once u reaches the road
length (no completion when the road id does not resolve). -/
noncomputable def updateExiting (cfg : Config) (cX cY : ℝ) (car0 : Car) : Car :=
  let car := { car0 with speed := car0.maxSpeed }
  match (intersectionRoads cfg cX cY)[car.roadId]? with
  | some road => if road.roadLen ≤ car.u then { car with state := CarState.completed } else car
  | none => car

/-- The switch over this.state in Car.updatePhysicalMovement. -/
noncomputable def stateDispatch (cfg : Config) (cX cY dt : ℝ)
    (lights : Direction → Light) (allCars : List Car) (now : ℝ) (car : Car) : Car :=
  match car.state with
  | CarState.approaching => updateApproaching cfg cX cY dt lights allCars now car
  | CarState.waiting => updateWaiting lights now car
  | CarState.crossing => updateCrossing cfg cX cY dt car
  | CarState.turning => updateTurning cfg cX cY now car
  | CarState.exiting => updateExiting cfg cX cY car
  | CarState.completed => car

/-- The longitudinal integration step of Car.updatePhysicalMovement:
u advances by speed * dt unless stopped or hidden. -/
noncomputable def integrateU (dt : ℝ) (c : Car) : Car :=
  if 0 < c.speed ∧ ¬c.isHidden then { c with u := c.u + c.speed * dt } else c

/-- The lateral integration step of Car.updatePhysicalMovement: when a
lane change is active, v advances by dvdt * dt and is clamped into
[0, nLanes - 1] of the road fetched at entry. -/
noncomputable def integrateV (road : Road) (dt : ℝ) (c : Car) : Car :=
  if 0.001 < |c.dvdt| then
    { c with v := max 0 (min ((road.nLanes : ℝ) - 1) (c.v + c.dvdt * dt)) }
  else c

/-- Car.updatePhysicalMovement: state dispatch, then longitudinal
integration, then lateral integration.  A road id that does not resolve
skips the whole tick. -/
noncomputable def updatePhysicalMovement (cfg : Config) (cX cY dt : ℝ)
    (lights : Direction → Light) (allCars : List Car) (now : ℝ) (car : Car) : Car :=
  match (intersectionRoads cfg cX cY)[car.roadId]? with
  | none => car
  | some road =>
    integrateV road dt (integrateU dt (stateDispatch cfg cX cY dt lights allCars now car))

/-- Car.update: physical movement with dt in seconds, pixel refresh,
intersection-footprint flag. -/
noncomputable def Car.update (cfg : Config) (cX cY deltaTime : ℝ)
    (lights : Direction → Light) (allCars : List Car) (now : ℝ) (car : Car) : Car :=
  let dt := deltaTime / 1000
  let c := updatePhysicalMovement cfg cX cY dt lights allCars now car
  let c := updatePixelPosition cfg cX cY c
  { c with isInIntersection := isInIntersectionAt cfg cX cY c.x c.y }

/-- Car.isCompleted. -/
def Car.isCompleted (car : Car) : Bool := car.state == CarState.completed

/-- The mutable settings snapshot of the manager. -/
structure Settings where
  CAR_SPAWN_RATE : ℝ
  CAR_SPEED : ℝ
  TURN_RATE : ℝ

/-- CarManager state: the live population, the id counter, the spawn
timer and the settings snapshot. -/
structure CarManager where
  cars : List Car
  nextCarId : ℕ
  spawnTimer : ℝ
  settings : Settings

/-- Modelled from the spec: utils.getDistance (utils.js is not among the
given sources); the spec speaks of vehicles lying within a clearance
distance of the spawn point, so this is the Euclidean distance. -/
noncomputable def getDistance (x1 y1 x2 y2 : ℝ) : ℝ :=
  Real.sqrt ((x1 - x2) ^ 2 + (y1 - y2) ^ 2)

/-- CarManager.spawnCar with the random direction and lane injected:
skip the spawn when some same-direction car is within distance 60 of the
spawn point, otherwise append a freshly constructed car and advance the
id counter. -/
noncomputable def CarManager.spawnCar (cfg : Config) (cX cY : ℝ)
    (direction : Direction) (lane : Fin 2) (turnChance : ℝ) (m : CarManager) : CarManager :=
  let spawnPoint := spawnPoints cfg cX cY direction
  let tooClose := ∃ car ∈ m.cars,
    car.fromDirection = direction ∧
      getDistance car.x car.y spawnPoint.1 spawnPoint.2 < 60
  if tooClose then m
  else
    { m with
      cars := m.cars ++ [Car.spawn cfg cX cY m.nextCarId direction lane turnChance]
      nextCarId := m.nextCarId + 1 }

/-- The sequential forEach of CarManager.update: each car is updated in
place, so the population a car sees mixes already-updated earlier cars
with not-yet-updated later ones. -/
noncomputable def seqUpdate (upd : List Car → Car → Car) :
    List Car → List Car → List Car
  | done, [] => done
  | done, c :: rest => seqUpdate upd (done ++ [upd (done ++ c :: rest) c]) rest

/-- The spawn-timer part of CarManager.update: advance the accumulator
by deltaTime, and once it reaches the interval derived from the spawn
rate, attempt one spawn and reset the timer. -/
noncomputable def spawnPhase (cfg : Config) (cX cY deltaTime : ℝ)
    (direction : Direction) (lane : Fin 2) (turnChance : ℝ) (m0 : CarManager) : CarManager :=
  let m := { m0 with spawnTimer := m0.spawnTimer + deltaTime }
  let spawnInterval := 10000 / m.settings.CAR_SPAWN_RATE
  if spawnInterval ≤ m.spawnTimer then
    { CarManager.spawnCar cfg cX cY direction lane turnChance m with spawnTimer := 0 }
  else m

/-- CarManager.update with the spawn randomness injected: the spawn
phase, then push the current speed setting into every car and update it
(the sequential forEach), then drop completed cars (the completion
callback is a side effect with no simulation state). -/
noncomputable def CarManager.update (cfg : Config) (cX cY deltaTime : ℝ)
    (lights : Direction → Light) (direction : Direction) (lane : Fin 2)
    (turnChance : ℝ) (now : ℝ) (m0 : CarManager) : CarManager :=
  let m := spawnPhase cfg cX cY deltaTime direction lane turnChance m0
  let updated := seqUpdate
    (fun others c =>
      Car.update cfg cX cY deltaTime lights others now { c with maxSpeed := m.settings.CAR_SPEED })
    [] m.cars
  { m with cars := updated.filter (fun c => ¬c.isCompleted) }

/-! ## Definitions written from the words of the spec, for refinement
comparisons, and concrete instances used by witnesses. -/

/-- Modelled from the spec: the tangent-angle convention, stated as the
spec words it ("if the x-difference is below a numerical tolerance the
tangent is vertical; otherwise angle = atan(dy/dx); 180 degrees is added
exactly when dx < 0, or when dx is below the tolerance and dy < 0"),
over the same clamped central sample. -/
noncomputable def phiTangentSpec (u : ℝ) (tx ty : ℝ → ℝ) (roadLen : ℝ) : ℝ :=
  let eps : ℝ := 0.1
  let uLoc := max eps (min (roadLen - eps) u)
  let dx := tx (uLoc + eps) - tx (uLoc - eps)
  let dy := ty (uLoc + eps) - ty (uLoc - eps)
  (if |dx| < 0.0000001 then 0.5 * Real.pi else Real.arctan (dy / dx)) +
    (if dx < 0 ∨ (|dx| < 0.0000001 ∧ dy < 0) then Real.pi else 0)

/-- Modelled from the spec: positionOn(roadId, u, v) as the spec words
it — the primary trajectory at u shifted by half a car length, offset
laterally by laneWidth * (v - 0.5 * (laneCount - 1)) along the local
heading rotated by 90 degrees. -/
noncomputable def positionOnSpec (cfg : Config) (road : Road) (u v : ℝ) : ℝ × ℝ :=
  let uRef := u - 0.5 * cfg.CAR_LENGTH
  let lateral := cfg.LANE_WIDTH * (v - 0.5 * ((road.nLanes : ℝ) - 1))
  let heading := get_phi uRef road.trajx road.trajy road.roadLen
  (road.trajx uRef + lateral * Real.cos (heading + Real.pi / 2),
   road.trajy uRef + lateral * Real.sin (heading + Real.pi / 2))

/-- A concrete configuration for witnesses (the numeric values are
arbitrary; N_LANES_SEC = 2 is modelled from the spec, which fixes two
entry lanes per direction: spawn draws a lane from {0, 1}, left turns
commit to lane 0, right turns to the last lane, 1). -/
noncomputable def cfg0 : Config :=
  { LANE_WIDTH := 5
    N_LANES_MAIN := 2
    N_LANES_SEC := 2
    RADIUS_RIGHT := 6
    RADIUS_LEFT := 12
    LEN_RIGHT := 20
    LEN_LEFT := 25
    CANVAS_WIDTH := 1000
    CANVAS_HEIGHT := 800
    REF_SIZE_PHYS := 1000
    OFFSET_MAIN := 4
    OFFSET_SEC := 3
    OFFSET_20_TARGET := 2
    INTERSECTION_SIZE := 100
    ROAD_WIDTH := 80
    CAR_LENGTH := 5
    CAR_WIDTH := 3
    CAR_HEIGHT := 2
    DEFAULT_CAR_SPEED := 7
    DEFAULT_CAR_SPAWN_RATE := 1
    DEFAULT_TURN_RATE := 0.5
    TURN_DELAYS := fun _ => 1000
    HEADINGS := fun _ => 0 }

/-- Example trajectory coordinate functions for the C1 witness. -/
def fEx : ℝ → ℝ := fun u => u

/-- Example trajectory coordinate functions for the C1 witness. -/
noncomputable def gEx : ℝ → ℝ := fun _ => 3

/-- A concrete car used by witnesses: state, station, lane and turn
type vary, the rest is fixed. -/
noncomputable def mkCarW (st : CarState) (u lane : ℝ) (tt : TurnType) : Car :=
  { id := 1
    fromDirection := Direction.north
    toDirection := Direction.south
    turnType := tt
    lane := lane
    roadId := 0
    u := u
    v := 0
    dvdt := 0
    len := 5
    x := 0
    y := 0
    angle := JSNum.fin 0
    speed := 3
    maxSpeed := 7
    width := 1
    height := 1
    state := st
    waitStartTime := none
    totalWaitTime := 0
    isInIntersection := False
    pathProgress := 0
    turnStartTime := none
    isHidden := false
    targetX := 0
    targetY := 0 }

/-- All cars of a list satisfy a predicate (structural, used to state
the population-wide invariant of C10). -/
def AllCars (p : Car → Prop) : List Car → Prop
  | [] => True
  | c :: rest => p c ∧ AllCars p rest

/-- An empty concrete manager for witnesses. -/
noncomputable def mgr0 : CarManager :=
  { cars := []
    nextCarId := 1
    spawnTimer := 0
    settings := { CAR_SPAWN_RATE := 1, CAR_SPEED := 7, TURN_RATE := 0.5 } }

/-! ## Claim theorems -/

/-- C1: get_phi follows exactly the spec convention: sample at the
clamped station plus and minus the fixed step (the clamp keeps both
samples inside [0, roadLen] whenever the road is at least two steps
long), vertical tangent below the tolerance, atan otherwise, and a pi
shift exactly when dx < 0 or (dx below tolerance and dy < 0). -/
theorem get_phi_follows_spec_convention (u roadLen : ℝ) (tx ty : ℝ → ℝ)
    (h : 0.2 ≤ roadLen) :
    (0 ≤ max 0.1 (min (roadLen - 0.1) u) - 0.1 ∧
      max 0.1 (min (roadLen - 0.1) u) + 0.1 ≤ roadLen) ∧
    get_phi u tx ty roadLen = phiTangentSpec u tx ty roadLen := by
  constructor
  · constructor
    · have h1 : (0.1 : ℝ) ≤ max 0.1 (min (roadLen - 0.1) u) := le_max_left _ _
      linarith
    · have h1 : max 0.1 (min (roadLen - 0.1) u) ≤ roadLen - 0.1 :=
        max_le (by linarith) (min_le_left _ _)
      linarith
  · simp only [get_phi, phiTangentSpec]
    split_ifs <;> ring

/-- Witness for C1 at a concrete station on a concrete trajectory. -/
theorem get_phi_follows_spec_convention_witness :
    (0 ≤ max 0.1 (min ((200 : ℝ) - 0.1) 50) - 0.1 ∧
      max 0.1 (min ((200 : ℝ) - 0.1) 50) + 0.1 ≤ 200) ∧
    get_phi 50 fEx gEx 200 = phiTangentSpec 50 fEx gEx 200 :=
  get_phi_follows_spec_convention 50 200 fEx gEx (by norm_num)

/-- C2: for a road id that resolves, getVehiclePosition returns exactly
the spec formula — trajectory at u shifted by half a car length, offset
laterally by laneWidth * (v - 0.5 * (laneCount - 1)) along the heading
rotated by 90 degrees — expressed in the pixel frame (multiplied by the
fixed scale, y flipped). -/
theorem getVehiclePosition_matches_positionOn (cfg : Config) (cX cY : ℝ)
    (roadId : ℕ) (road : Road) (u v : ℝ)
    (h : (intersectionRoads cfg cX cY)[roadId]? = some road) :
    getVehiclePosition cfg cX cY roadId u v =
      some ((positionOnSpec cfg road u v).1 * scale cfg,
        -(positionOnSpec cfg road u v).2 * scale cfg) := by
  simp only [getVehiclePosition, h, positionOnSpec]

/-- Witness for C2 on road 0 of a concrete intersection. -/
theorem getVehiclePosition_matches_positionOn_witness :
    getVehiclePosition cfg0 400 300 0 50 0 =
      some ((positionOnSpec cfg0 (road0 cfg0 400 300) 50 0).1 * scale cfg0,
        -(positionOnSpec cfg0 (road0 cfg0 400 300) 50 0).2 * scale cfg0) :=
  getVehiclePosition_matches_positionOn cfg0 400 300 0 (road0 cfg0 400 300) 50 0
    (by simp [intersectionRoads])

/-- C3, evaluation at the failing input: with speed = 0 the heading
returned by getVehicleOrientation is NOT the road tangent angle alone.
On road 0 (tangent angle 0 at u = 10) a lane-change rate of 1 gives
tangent - pi/2 (the JS quotient is +Infinity, atan of it pi/2), which
differs from the tangent angle; and a lane-change rate of 0 gives NaN
(0/0), not a well-defined number.  This holds for every intersection
centre. -/
theorem getVehicleOrientation_zero_speed_not_tangent (cX cY : ℝ) :
    get_phi (10 - 0.5 * cfg0.CAR_LENGTH) (road0 cfg0 cX cY).trajx
        (road0 cfg0 cX cY).trajy (road0 cfg0 cX cY).roadLen = 0 ∧
    getVehicleOrientation cfg0 cX cY 0 10 1 0 = JSNum.fin (-(Real.pi / 2)) ∧
    JSNum.fin (-(Real.pi / 2)) ≠ JSNum.fin 0 ∧
    getVehicleOrientation cfg0 cX cY 0 10 0 0 = JSNum.nan := by
  have hphi : get_phi (10 - 0.5 * cfg0.CAR_LENGTH) (road0 cfg0 cX cY).trajx
      (road0 cfg0 cX cY).trajy (road0 cfg0 cX cY).roadLen = 0 := by
    simp only [get_phi, road0]
    have hdx : ∀ a : ℝ,
        centerXPhys cfg0 cX + (a + 0.1) - 0.5 * 200 -
          (centerXPhys cfg0 cX + (a - 0.1) - 0.5 * 200) = 0.2 := by
      intro a; ring
    rw [hdx]
    norm_num
    intro hfalse
    rw [abs_lt] at hfalse
    have := hfalse.2
    norm_num at this
  refine ⟨hphi, ?_, ?_, ?_⟩
  · simp only [getVehicleOrientation, intersectionRoads, List.getElem?_cons_zero]
    rw [hphi]
    have hdiv : jsDiv (1 * cfg0.LANE_WIDTH) 0 = JSNum.posInf := by
      simp only [jsDiv, cfg0]; norm_num
    rw [hdiv]
    simp [jsAtan, jsNeg, jsAddFin]
  · simp only [ne_eq, JSNum.fin.injEq]
    intro hc
    have := Real.pi_pos
    linarith
  · simp only [getVehicleOrientation, intersectionRoads, List.getElem?_cons_zero]
    have hdiv : jsDiv (0 * cfg0.LANE_WIDTH) 0 = JSNum.nan := by
      simp only [jsDiv, cfg0]; norm_num
    rw [hdiv]
    simp [jsAtan, jsNeg, jsAddFin]

/-- C5, evaluation at the failing input: for EVERY configuration and
intersection centre, the right-turn alternative trajectory of road 2
(north-bound) evaluated at its entry station umin = 104.16 sits 95.84
metres away (in y) from the primary trajectory of road 2 at that same
station — the switch teleports the vehicle, there is a positional jump. -/
theorem rightTurn_trajectory_jump_at_entry (cfg : Config) (cX cY : ℝ) :
    (road2 cfg cX cY).trajAlt.head? =
      some (setupRightTurnTrajectory cfg 2 0 (centerXPhys cfg cX) (centerYPhys cfg cY)
        u20T (roadNLanes cfg ("north-bound"))) ∧
    (setupRightTurnTrajectory cfg 2 0 (centerXPhys cfg cX) (centerYPhys cfg cY)
        u20T (roadNLanes cfg ("north-bound"))).y u20T 0 -
      (road2 cfg cX cY).trajy u20T = 95.84 ∧
    ((setupRightTurnTrajectory cfg 2 0 (centerXPhys cfg cX) (centerYPhys cfg cY)
        u20T (roadNLanes cfg ("north-bound"))).x u20T 0,
     (setupRightTurnTrajectory cfg 2 0 (centerXPhys cfg cX) (centerYPhys cfg cY)
        u20T (roadNLanes cfg ("north-bound"))).y u20T 0) ≠
      ((road2 cfg cX cY).trajx u20T, (road2 cfg cX cY).trajy u20T) := by
  have hy : (setupRightTurnTrajectory cfg 2 0 (centerXPhys cfg cX) (centerYPhys cfg cY)
      u20T (roadNLanes cfg ("north-bound"))).y u20T 0 -
      (road2 cfg cX cY).trajy u20T = 95.84 := by
    simp only [setupRightTurnTrajectory, road2, u20T]
    norm_num
    linarith
  refine ⟨rfl, hy, ?_⟩
  intro hc
  have h2 := congrArg Prod.snd hc
  simp only at h2
  rw [h2] at hy
  norm_num at hy

/-- C4: the alternative-trajectory lookup returns the first entry whose
[umin, umax] contains u and whose [laneMin, laneMax] contains the
committed lane; on a match followAlternativeTrajectory reassigns roadId
to the destination, resets u to umin and caps speed at 0.8 * maxSpeed;
on no match roadId and u are unchanged; and while crossing with a
non-straight turn type the update routes through exactly this switch. -/
theorem followAlternativeTrajectory_spec (cfg : Config) (cX cY dt : ℝ)
    (car : Car) (road : Road)
    (h : (intersectionRoads cfg cX cY)[car.roadId]? = some road) :
    (∀ t, findAlt car.u car.lane road.trajAlt = some t →
      (followAlternativeTrajectory cfg cX cY car).roadId = t.roadID ∧
      (followAlternativeTrajectory cfg cX cY car).u = t.umin ∧
      (followAlternativeTrajectory cfg cX cY car).speed =
        min (car.maxSpeed * 0.8) car.speed) ∧
    (findAlt car.u car.lane road.trajAlt = none →
      (followAlternativeTrajectory cfg cX cY car).roadId = car.roadId ∧
      (followAlternativeTrajectory cfg cX cY car).u = car.u) ∧
    (∀ l₁ l₂ t,
      (∀ t' ∈ l₁, ¬(t'.umin ≤ car.u ∧ car.u ≤ t'.umax ∧
        t'.laneMin ≤ car.lane ∧ car.lane ≤ t'.laneMax)) →
      (t.umin ≤ car.u ∧ car.u ≤ t.umax ∧
        t.laneMin ≤ car.lane ∧ car.lane ≤ t.laneMax) →
      findAlt car.u car.lane (l₁ ++ t :: l₂) = some t) ∧
    (car.turnType ≠ TurnType.straight →
      (updateCrossing cfg cX cY dt car).roadId =
        (followAlternativeTrajectory cfg cX cY car).roadId ∧
      (updateCrossing cfg cX cY dt car).u =
        (followAlternativeTrajectory cfg cX cY car).u) := by
  refine ⟨?_, ?_, ?_, ?_⟩
  · intro t ht
    simp only [followAlternativeTrajectory, h, ht]
    simp
  · intro ht
    simp only [followAlternativeTrajectory, h, ht]
    simp
  · intro l₁ l₂ t hnone hmatch
    induction l₁ with
    | nil =>
      simp only [List.nil_append, findAlt]
      rw [if_pos hmatch]
    | cons t' rest ih =>
      have hne := hnone t' (List.mem_cons_self t' rest)
      simp only [List.cons_append, findAlt, if_neg hne]
      exact ih fun x hx => hnone x (List.mem_cons_of_mem t' hx)
  · intro htt
    simp only [updateCrossing, if_pos htt]
    constructor
    · rw [apply_ite Car.roadId]
      simp
    · rw [apply_ite Car.u]
      simp

/-- Witness for C4: a crossing right-turn car at station 110 in lane 1
on road 0 of a concrete intersection. -/
theorem followAlternativeTrajectory_spec_witness :
    (∀ t, findAlt (mkCarW CarState.crossing 110 1 TurnType.right).u
        (mkCarW CarState.crossing 110 1 TurnType.right).lane
        (road0 cfg0 400 300).trajAlt = some t →
      (followAlternativeTrajectory cfg0 400 300
        (mkCarW CarState.crossing 110 1 TurnType.right)).roadId = t.roadID ∧
      (followAlternativeTrajectory cfg0 400 300
        (mkCarW CarState.crossing 110 1 TurnType.right)).u = t.umin ∧
      (followAlternativeTrajectory cfg0 400 300
        (mkCarW CarState.crossing 110 1 TurnType.right)).speed =
        min ((mkCarW CarState.crossing 110 1 TurnType.right).maxSpeed * 0.8)
          (mkCarW CarState.crossing 110 1 TurnType.right).speed) ∧
    (findAlt (mkCarW CarState.crossing 110 1 TurnType.right).u
        (mkCarW CarState.crossing 110 1 TurnType.right).lane
        (road0 cfg0 400 300).trajAlt = none →
      (followAlternativeTrajectory cfg0 400 300
        (mkCarW CarState.crossing 110 1 TurnType.right)).roadId =
        (mkCarW CarState.crossing 110 1 TurnType.right).roadId ∧
      (followAlternativeTrajectory cfg0 400 300
        (mkCarW CarState.crossing 110 1 TurnType.right)).u =
        (mkCarW CarState.crossing 110 1 TurnType.right).u) ∧
    (∀ l₁ l₂ t,
      (∀ t' ∈ l₁, ¬(t'.umin ≤ (mkCarW CarState.crossing 110 1 TurnType.right).u ∧
        (mkCarW CarState.crossing 110 1 TurnType.right).u ≤ t'.umax ∧
        t'.laneMin ≤ (mkCarW CarState.crossing 110 1 TurnType.right).lane ∧
        (mkCarW CarState.crossing 110 1 TurnType.right).lane ≤ t'.laneMax)) →
      (t.umin ≤ (mkCarW CarState.crossing 110 1 TurnType.right).u ∧
        (mkCarW CarState.crossing 110 1 TurnType.right).u ≤ t.umax ∧
        t.laneMin ≤ (mkCarW CarState.crossing 110 1 TurnType.right).lane ∧
        (mkCarW CarState.crossing 110 1 TurnType.right).lane ≤ t.laneMax) →
      findAlt (mkCarW CarState.crossing 110 1 TurnType.right).u
        (mkCarW CarState.crossing 110 1 TurnType.right).lane
        (l₁ ++ t :: l₂) = some t) ∧
    ((mkCarW CarState.crossing 110 1 TurnType.right).turnType ≠ TurnType.straight →
      (updateCrossing cfg0 400 300 0.016
        (mkCarW CarState.crossing 110 1 TurnType.right)).roadId =
        (followAlternativeTrajectory cfg0 400 300
          (mkCarW CarState.crossing 110 1 TurnType.right)).roadId ∧
      (updateCrossing cfg0 400 300 0.016
        (mkCarW CarState.crossing 110 1 TurnType.right)).u =
        (followAlternativeTrajectory cfg0 400 300
          (mkCarW CarState.crossing 110 1 TurnType.right)).u) :=
  followAlternativeTrajectory_spec cfg0 400 300 0.016
    (mkCarW CarState.crossing 110 1 TurnType.right) (road0 cfg0 400 300)
    (by simp [mkCarW, intersectionRoads])

/-- C6: an approaching vehicle that is near the stop line or blocked by
a car ahead, when the light is red or the car ahead is too close,
transitions to waiting with speed zero; the wait-start timestamp is
recorded exactly when the stop is not caused by spacing. -/
theorem updateApproaching_stop_decision (cfg : Config) (cX cY dt now : ℝ)
    (lights : Direction → Light) (allCars : List Car) (car : Car)
    (hnear : getDistanceToStopLine cfg cX cY (prepareForTurn car) ≤ 30 ∨
      approachShouldStop (prepareForTurn car) allCars)
    (hcause : lights (prepareForTurn car).fromDirection = Light.red ∨
      approachShouldStop (prepareForTurn car) allCars) :
    (updateApproaching cfg cX cY dt lights allCars now car).state = CarState.waiting ∧
    (updateApproaching cfg cX cY dt lights allCars now car).speed = 0 ∧
    (updateApproaching cfg cX cY dt lights allCars now car).waitStartTime =
      (if approachShouldStop (prepareForTurn car) allCars then
        (prepareForTurn car).waitStartTime else some now) := by
  simp only [updateApproaching, if_pos (And.intro hnear hcause)]
  simp

/-- Witness for C6: an approaching straight car at station 80 (distance
to the stop line 20) with the north light red and no other cars. -/
theorem updateApproaching_stop_decision_witness :
    (updateApproaching cfg0 400 300 0.016 (fun _ => Light.red) [] 5
      (mkCarW CarState.approaching 80 0 TurnType.straight)).state = CarState.waiting ∧
    (updateApproaching cfg0 400 300 0.016 (fun _ => Light.red) [] 5
      (mkCarW CarState.approaching 80 0 TurnType.straight)).speed = 0 ∧
    (updateApproaching cfg0 400 300 0.016 (fun _ => Light.red) [] 5
      (mkCarW CarState.approaching 80 0 TurnType.straight)).waitStartTime =
      (if approachShouldStop (prepareForTurn (mkCarW CarState.approaching 80 0 TurnType.straight)) [] then
        (prepareForTurn (mkCarW CarState.approaching 80 0 TurnType.straight)).waitStartTime
      else some 5) :=
  updateApproaching_stop_decision cfg0 400 300 0.016 5 (fun _ => Light.red) []
    (mkCarW CarState.approaching 80 0 TurnType.straight)
    (Or.inl (by
      simp [getDistanceToStopLine, prepareForTurn, mkCarW, intersectionRoads]
      norm_num))
    (Or.inl rfl)

/-- C7: a waiting vehicle has its speed forced to zero every tick, and
whenever its light shows green or yellow it transitions to crossing with
the wait-start timestamp cleared. -/
theorem updateWaiting_spec (lights : Direction → Light) (now : ℝ) (car : Car) :
    (updateWaiting lights now car).speed = 0 ∧
    ((lights car.fromDirection = Light.green ∨ lights car.fromDirection = Light.yellow) →
      (updateWaiting lights now car).state = CarState.crossing ∧
      (updateWaiting lights now car).waitStartTime = none) := by
  constructor
  · simp only [updateWaiting]
    cases car.waitStartTime <;> split_ifs <;> rfl
  · intro hlight
    simp only [updateWaiting]
    cases car.waitStartTime <;> simp only [if_pos hlight] <;> simp

/-- Witness for C7: a waiting car under a green light. -/
theorem updateWaiting_spec_witness :
    (updateWaiting (fun _ => Light.green) 5
      (mkCarW CarState.waiting 80 0 TurnType.straight)).speed = 0 ∧
    (updateWaiting (fun _ => Light.green) 5
      (mkCarW CarState.waiting 80 0 TurnType.straight)).state = CarState.crossing ∧
    (updateWaiting (fun _ => Light.green) 5
      (mkCarW CarState.waiting 80 0 TurnType.straight)).waitStartTime = none :=
  ⟨(updateWaiting_spec (fun _ => Light.green) 5
      (mkCarW CarState.waiting 80 0 TurnType.straight)).1,
   (updateWaiting_spec (fun _ => Light.green) 5
      (mkCarW CarState.waiting 80 0 TurnType.straight)).2 (Or.inl rfl)⟩

/-! ## Field-preservation lemmas: no state-machine branch writes the
lateral position v or the cap maxSpeed. -/

lemma prepareForTurn_v (car : Car) : (prepareForTurn car).v = car.v := by
  unfold prepareForTurn; split <;> rfl

lemma prepareForTurn_maxSpeed (car : Car) : (prepareForTurn car).maxSpeed = car.maxSpeed := by
  unfold prepareForTurn; split <;> rfl

lemma updateApproaching_v (cfg : Config) (cX cY dt : ℝ) (lights : Direction → Light)
    (allCars : List Car) (now : ℝ) (car : Car) :
    (updateApproaching cfg cX cY dt lights allCars now car).v = car.v := by
  simp only [updateApproaching]
  split_ifs <;> simp [prepareForTurn_v]

lemma updateApproaching_maxSpeed (cfg : Config) (cX cY dt : ℝ) (lights : Direction → Light)
    (allCars : List Car) (now : ℝ) (car : Car) :
    (updateApproaching cfg cX cY dt lights allCars now car).maxSpeed = car.maxSpeed := by
  simp only [updateApproaching]
  split_ifs <;> simp [prepareForTurn_maxSpeed]

lemma updateWaiting_v (lights : Direction → Light) (now : ℝ) (car : Car) :
    (updateWaiting lights now car).v = car.v := by
  simp only [updateWaiting]
  cases car.waitStartTime <;> split_ifs <;> rfl

lemma updateWaiting_maxSpeed (lights : Direction → Light) (now : ℝ) (car : Car) :
    (updateWaiting lights now car).maxSpeed = car.maxSpeed := by
  simp only [updateWaiting]
  cases car.waitStartTime <;> split_ifs <;> rfl

lemma followAlternativeTrajectory_v (cfg : Config) (cX cY : ℝ) (car : Car) :
    (followAlternativeTrajectory cfg cX cY car).v = car.v := by
  unfold followAlternativeTrajectory
  split
  · rfl
  · split <;> rfl

lemma followAlternativeTrajectory_maxSpeed (cfg : Config) (cX cY : ℝ) (car : Car) :
    (followAlternativeTrajectory cfg cX cY car).maxSpeed = car.maxSpeed := by
  unfold followAlternativeTrajectory
  split
  · rfl
  · split <;> rfl

lemma updateCrossing_v (cfg : Config) (cX cY dt : ℝ) (car : Car) :
    (updateCrossing cfg cX cY dt car).v = car.v := by
  simp only [updateCrossing]
  split_ifs <;> simp [followAlternativeTrajectory_v]

lemma updateCrossing_maxSpeed (cfg : Config) (cX cY dt : ℝ) (car : Car) :
    (updateCrossing cfg cX cY dt car).maxSpeed = car.maxSpeed := by
  simp only [updateCrossing]
  split_ifs <;> simp [followAlternativeTrajectory_maxSpeed]

lemma updateTurning_v (cfg : Config) (cX cY now : ℝ) (car : Car) :
    (updateTurning cfg cX cY now car).v = car.v := by
  simp only [updateTurning]
  split_ifs <;> rfl

lemma updateTurning_maxSpeed (cfg : Config) (cX cY now : ℝ) (car : Car) :
    (updateTurning cfg cX cY now car).maxSpeed = car.maxSpeed := by
  simp only [updateTurning]
  split_ifs <;> rfl

lemma updateExiting_v (cfg : Config) (cX cY : ℝ) (car : Car) :
    (updateExiting cfg cX cY car).v = car.v := by
  simp only [updateExiting]
  split
  · split_ifs <;> rfl
  · rfl

lemma updateExiting_maxSpeed (cfg : Config) (cX cY : ℝ) (car : Car) :
    (updateExiting cfg cX cY car).maxSpeed = car.maxSpeed := by
  simp only [updateExiting]
  split
  · split_ifs <;> rfl
  · rfl

lemma updatePixelPosition_v (cfg : Config) (cX cY : ℝ) (car : Car) :
    (updatePixelPosition cfg cX cY car).v = car.v := by
  unfold updatePixelPosition
  split <;> rfl

lemma updatePixelPosition_maxSpeed (cfg : Config) (cX cY : ℝ) (car : Car) :
    (updatePixelPosition cfg cX cY car).maxSpeed = car.maxSpeed := by
  unfold updatePixelPosition
  split <;> rfl

lemma stateDispatch_v (cfg : Config) (cX cY dt : ℝ) (lights : Direction → Light)
    (allCars : List Car) (now : ℝ) (car : Car) :
    (stateDispatch cfg cX cY dt lights allCars now car).v = car.v := by
  unfold stateDispatch
  split <;>
    simp [updateApproaching_v, updateWaiting_v, updateCrossing_v,
      updateTurning_v, updateExiting_v]

lemma stateDispatch_maxSpeed (cfg : Config) (cX cY dt : ℝ) (lights : Direction → Light)
    (allCars : List Car) (now : ℝ) (car : Car) :
    (stateDispatch cfg cX cY dt lights allCars now car).maxSpeed = car.maxSpeed := by
  unfold stateDispatch
  split <;>
    simp [updateApproaching_maxSpeed, updateWaiting_maxSpeed, updateCrossing_maxSpeed,
      updateTurning_maxSpeed, updateExiting_maxSpeed]

/-- Every road of the intersection has N_LANES_SEC lanes (no type
string contains "main"). -/
lemma roads_nLanes (cfg : Config) (cX cY : ℝ) (road : Road)
    (h : road ∈ intersectionRoads cfg cX cY) : road.nLanes = cfg.N_LANES_SEC := by
  simp only [intersectionRoads, List.mem_cons, List.not_mem_nil, or_false] at h
  rcases h with h | h | h | h | h | h <;> subst h <;> rfl

lemma integrateU_v (dt : ℝ) (c : Car) : (integrateU dt c).v = c.v := by
  unfold integrateU; split_ifs <;> rfl

lemma integrateU_maxSpeed (dt : ℝ) (c : Car) : (integrateU dt c).maxSpeed = c.maxSpeed := by
  unfold integrateU; split_ifs <;> rfl

lemma integrateV_maxSpeed (road : Road) (dt : ℝ) (c : Car) :
    (integrateV road dt c).maxSpeed = c.maxSpeed := by
  unfold integrateV; split_ifs <;> rfl

/-- The lateral integration keeps v inside [0, nLanes - 1] when it was
there before. -/
lemma integrateV_v_bounds (road : Road) (dt : ℝ) (c : Car)
    (hn : (1 : ℝ) ≤ (road.nLanes : ℝ))
    (h0 : 0 ≤ c.v) (h1 : c.v ≤ (road.nLanes : ℝ) - 1) :
    0 ≤ (integrateV road dt c).v ∧ (integrateV road dt c).v ≤ (road.nLanes : ℝ) - 1 := by
  unfold integrateV
  split_ifs
  · constructor
    · exact le_max_left 0 _
    · exact max_le (by linarith) (min_le_left _ _)
  · exact ⟨h0, h1⟩

lemma updatePhysicalMovement_maxSpeed (cfg : Config) (cX cY dt : ℝ)
    (lights : Direction → Light) (allCars : List Car) (now : ℝ) (car : Car) :
    (updatePhysicalMovement cfg cX cY dt lights allCars now car).maxSpeed = car.maxSpeed := by
  unfold updatePhysicalMovement
  split
  · rfl
  · simp [integrateV_maxSpeed, integrateU_maxSpeed, stateDispatch_maxSpeed]

/-- The physical-movement step keeps v inside [0, N_LANES_SEC - 1] when
it was there before. -/
lemma updatePhysicalMovement_v_bounds (cfg : Config) (cX cY dt : ℝ)
    (lights : Direction → Light) (allCars : List Car) (now : ℝ) (car : Car)
    (hn : 1 ≤ cfg.N_LANES_SEC)
    (h0 : 0 ≤ car.v) (h1 : car.v ≤ (cfg.N_LANES_SEC : ℝ) - 1) :
    0 ≤ (updatePhysicalMovement cfg cX cY dt lights allCars now car).v ∧
      (updatePhysicalMovement cfg cX cY dt lights allCars now car).v ≤
        (cfg.N_LANES_SEC : ℝ) - 1 := by
  unfold updatePhysicalMovement
  split
  · exact ⟨h0, h1⟩
  · rename_i road hroad
    have hnl : road.nLanes = cfg.N_LANES_SEC :=
      roads_nLanes cfg cX cY road (List.getElem?_mem hroad)
    have hv : (integrateU dt (stateDispatch cfg cX cY dt lights allCars now car)).v = car.v := by
      rw [integrateU_v, stateDispatch_v]
    have hb := integrateV_v_bounds road dt
      (integrateU dt (stateDispatch cfg cX cY dt lights allCars now car))
      (by rw [hnl]; exact_mod_cast hn) (by rw [hv]; exact h0) (by rw [hv, hnl]; exact h1)
    rw [hnl] at hb
    exact hb

lemma Car.update_maxSpeed (cfg : Config) (cX cY deltaTime : ℝ)
    (lights : Direction → Light) (allCars : List Car) (now : ℝ) (car : Car) :
    (Car.update cfg cX cY deltaTime lights allCars now car).maxSpeed = car.maxSpeed := by
  unfold Car.update
  simp [updatePixelPosition_maxSpeed, updatePhysicalMovement_maxSpeed]

lemma AllCars_append (p : Car → Prop) (l₁ l₂ : List Car)
    (h₁ : AllCars p l₁) (h₂ : AllCars p l₂) : AllCars p (l₁ ++ l₂) := by
  induction l₁ with
  | nil => simpa using h₂
  | cons c cs ih => exact ⟨h₁.1, ih h₁.2⟩

lemma AllCars_filter (p : Car → Prop) (q : Car → Bool) (l : List Car)
    (h : AllCars p l) : AllCars p (l.filter q) := by
  induction l with
  | nil => trivial
  | cons c cs ih =>
    rw [List.filter_cons]
    split_ifs
    · exact ⟨h.1, ih h.2⟩
    · exact ih h.2

lemma seqUpdate_all (p : Car → Prop) (upd : List Car → Car → Car)
    (hupd : ∀ others c, p (upd others c)) :
    ∀ (rest done : List Car), AllCars p done → AllCars p (seqUpdate upd done rest) := by
  intro rest
  induction rest with
  | nil =>
    intro done h
    simp only [seqUpdate]
    exact h
  | cons c cs ih =>
    intro done h
    simp only [seqUpdate]
    exact ih _ (AllCars_append p done [upd (done ++ c :: cs) c] h ⟨hupd _ _, trivial⟩)

lemma spawnCar_settings (cfg : Config) (cX cY : ℝ) (direction : Direction)
    (lane : Fin 2) (turnChance : ℝ) (m : CarManager) :
    (CarManager.spawnCar cfg cX cY direction lane turnChance m).settings = m.settings := by
  simp only [CarManager.spawnCar]
  split_ifs <;> rfl

lemma spawnPhase_settings (cfg : Config) (cX cY deltaTime : ℝ) (direction : Direction)
    (lane : Fin 2) (turnChance : ℝ) (m0 : CarManager) :
    (spawnPhase cfg cX cY deltaTime direction lane turnChance m0).settings = m0.settings := by
  simp only [spawnPhase]
  split_ifs <;> simp [spawnCar_settings]

/-- C8: the lateral position v stays inside [0, laneCount - 1] of the
current road across a full tick, and a freshly spawned car (spawn lane 0
or 1) starts inside it.  Every road has N_LANES_SEC lanes; two entry
lanes per direction is modelled from the spec (config.js is external). -/
theorem lateral_position_in_lane_range (cfg : Config) (cX cY deltaTime now turnChance : ℝ)
    (lights : Direction → Light) (allCars : List Car) (car : Car)
    (id : ℕ) (direction : Direction) (lane : Fin 2)
    (hsec : 2 ≤ cfg.N_LANES_SEC)
    (hv0 : 0 ≤ car.v) (hv1 : car.v ≤ (cfg.N_LANES_SEC : ℝ) - 1) :
    (0 ≤ (Car.update cfg cX cY deltaTime lights allCars now car).v ∧
      (Car.update cfg cX cY deltaTime lights allCars now car).v ≤
        (cfg.N_LANES_SEC : ℝ) - 1) ∧
    (0 ≤ (Car.spawn cfg cX cY id direction lane turnChance).v ∧
      (Car.spawn cfg cX cY id direction lane turnChance).v ≤
        (cfg.N_LANES_SEC : ℝ) - 1) := by
  constructor
  · have hup : (Car.update cfg cX cY deltaTime lights allCars now car).v =
        (updatePhysicalMovement cfg cX cY (deltaTime / 1000) lights allCars now car).v := by
      simp [Car.update, updatePixelPosition_v]
    rw [hup]
    exact updatePhysicalMovement_v_bounds cfg cX cY (deltaTime / 1000) lights allCars now car
      (le_trans one_le_two hsec) hv0 hv1
  · have hs : (Car.spawn cfg cX cY id direction lane turnChance).v = ((lane : ℕ) : ℝ) := by
      simp [Car.spawn, updatePixelPosition_v]
    rw [hs]
    have hl : ((lane : ℕ) : ℝ) ≤ 1 := by
      exact_mod_cast Nat.lt_succ_iff.mp lane.isLt
    have hN : (2 : ℝ) ≤ (cfg.N_LANES_SEC : ℝ) := by exact_mod_cast hsec
    exact ⟨Nat.cast_nonneg _, by linarith⟩

/-- Witness for C8: a concrete waiting car in lane 0 of the two-lane
configuration, and a spawn into lane 0. -/
theorem lateral_position_in_lane_range_witness :
    (0 ≤ (Car.update cfg0 400 300 16 (fun _ => Light.red) [] 5
        (mkCarW CarState.waiting 80 0 TurnType.straight)).v ∧
      (Car.update cfg0 400 300 16 (fun _ => Light.red) [] 5
        (mkCarW CarState.waiting 80 0 TurnType.straight)).v ≤
        (cfg0.N_LANES_SEC : ℝ) - 1) ∧
    (0 ≤ (Car.spawn cfg0 400 300 1 Direction.north 0 0.9).v ∧
      (Car.spawn cfg0 400 300 1 Direction.north 0 0.9).v ≤
        (cfg0.N_LANES_SEC : ℝ) - 1) :=
  lateral_position_in_lane_range cfg0 400 300 16 5 0.9 (fun _ => Light.red) []
    (mkCarW CarState.waiting 80 0 TurnType.straight) 1 Direction.north 0
    (by norm_num [cfg0]) (by norm_num [mkCarW]) (by norm_num [mkCarW, cfg0])

/-- C9: a spawn attempt is rejected (the population is unchanged) if
and only if some existing vehicle with the same entry direction lies
within the clearance distance 60 of that direction's spawn point; when
no such vehicle exists the spawn succeeds and appends the new car. -/
theorem spawnCar_clearance (cfg : Config) (cX cY : ℝ) (direction : Direction)
    (lane : Fin 2) (turnChance : ℝ) (m : CarManager) :
    ((CarManager.spawnCar cfg cX cY direction lane turnChance m).cars = m.cars ↔
      ∃ car ∈ m.cars, car.fromDirection = direction ∧
        getDistance car.x car.y (spawnPoints cfg cX cY direction).1
          (spawnPoints cfg cX cY direction).2 < 60) ∧
    ((¬∃ car ∈ m.cars, car.fromDirection = direction ∧
        getDistance car.x car.y (spawnPoints cfg cX cY direction).1
          (spawnPoints cfg cX cY direction).2 < 60) →
      (CarManager.spawnCar cfg cX cY direction lane turnChance m).cars =
        m.cars ++ [Car.spawn cfg cX cY m.nextCarId direction lane turnChance]) := by
  have hneg : ∀ hno : ¬∃ car ∈ m.cars, car.fromDirection = direction ∧
      getDistance car.x car.y (spawnPoints cfg cX cY direction).1
        (spawnPoints cfg cX cY direction).2 < 60,
      (CarManager.spawnCar cfg cX cY direction lane turnChance m).cars =
        m.cars ++ [Car.spawn cfg cX cY m.nextCarId direction lane turnChance] := by
    intro hno
    simp only [CarManager.spawnCar]
    rw [if_neg hno]
  refine ⟨⟨?_, ?_⟩, hneg⟩
  · intro heq
    by_contra hno
    rw [hneg hno] at heq
    have hlen := congrArg List.length heq
    simp only [List.length_append, List.length_singleton] at hlen
    omega
  · intro hyes
    simp only [CarManager.spawnCar]
    rw [if_pos hyes]

/-- Witness for C9: with an empty population the clearance check passes
and the spawn appends the new car. -/
theorem spawnCar_clearance_witness :
    (¬∃ car ∈ mgr0.cars, car.fromDirection = Direction.north ∧
      getDistance car.x car.y (spawnPoints cfg0 400 300 Direction.north).1
        (spawnPoints cfg0 400 300 Direction.north).2 < 60) ∧
    (CarManager.spawnCar cfg0 400 300 Direction.north 0 0.9 mgr0).cars =
      mgr0.cars ++ [Car.spawn cfg0 400 300 mgr0.nextCarId Direction.north 0 0.9] :=
  ⟨by simp [mgr0],
   (spawnCar_clearance cfg0 400 300 Direction.north 0 0.9 mgr0).2 (by simp [mgr0])⟩

/-- C10: after a manager update every surviving car's maxSpeed is
exactly the settings' CAR_SPEED (assigned in the update loop with no
lane-width conversion), although the constructor initialises maxSpeed to
CAR_SPEED * LANE_WIDTH — so the cap in force from the first tick onward
differs from the construction-time value by the lane-width factor. -/
theorem maxSpeed_equals_settings_after_update (cfg : Config)
    (cX cY deltaTime now turnChance : ℝ) (lights : Direction → Light)
    (direction : Direction) (lane : Fin 2) (id : ℕ)
    (spawnDirection : Direction) (m : CarManager) :
    AllCars (fun c => c.maxSpeed = m.settings.CAR_SPEED)
      ((CarManager.update cfg cX cY deltaTime lights direction lane turnChance now m).cars) ∧
    (Car.spawn cfg cX cY id spawnDirection lane turnChance).maxSpeed =
      cfg.DEFAULT_CAR_SPEED * cfg.LANE_WIDTH := by
  constructor
  · simp only [CarManager.update]
    apply AllCars_filter
    apply seqUpdate_all
    · intro others c
      show (Car.update cfg cX cY deltaTime lights others now
        { c with maxSpeed :=
            (spawnPhase cfg cX cY deltaTime direction lane turnChance m).settings.CAR_SPEED }).maxSpeed =
        m.settings.CAR_SPEED
      rw [Car.update_maxSpeed]
      simp [spawnPhase_settings]
    · trivial
  · simp [Car.spawn, updatePixelPosition_maxSpeed]

end TrafficSim
